import Mathlib

/-!
Shallow embedding of the ink! bump allocator
(`crates/allocator/src/bump.rs`).

Machine integers (`usize`) are modelled as `Nat` together with an explicit
word width `w`: a value is representable when it is at most `USIZE_MAX w`,
and the Rust `checked_*` operations return `none` exactly when the
mathematical result exceeds `USIZE_MAX w`.

The mutable `InnerAlloc` state is threaded explicitly: `alloc` returns the
optional start address together with the state after the call, so the
partial mutation performed by the source (`self.upper_limit` is assigned
before `self.next` in the page-growth branch) is visible in the model.
-/

/-- `const PAGE_SIZE: usize = 64 * 1024;` — a page in Wasm is 64KiB. -/
def PAGE_SIZE : Nat := 64 * 1024

/-- Largest representable value of the address-width unsigned integer. -/
def USIZE_MAX (w : Nat) : Nat := 2 ^ w - 1

/-- Rust `usize::checked_add`: `none` on overflow of the `w`-bit width. -/
def checked_add (w a b : Nat) : Option Nat :=
  if a + b ≤ USIZE_MAX w then some (a + b) else none

/-- Rust `usize::checked_mul`: `none` on overflow of the `w`-bit width. -/
def checked_mul (w a b : Nat) : Option Nat :=
  if a * b ≤ USIZE_MAX w then some (a * b) else none

/-- Rust `usize::checked_div`: `none` only when the divisor is zero. -/
def checked_div (a b : Nat) : Option Nat :=
  if b = 0 then none else some (a / b)

/-- `core::alloc::Layout`: a size and a power-of-two alignment. -/
structure Layout where
  size : Nat
  align : Nat
  align_is_pow2 : ∃ k : Nat, align = 2 ^ k

/-- `layout.pad_to_align().size()`: the size rounded up to the next multiple
of the alignment.  For a power-of-two `align` this equals the masked
computation `(size + align - 1) & !(align - 1)` used by `core::alloc`. -/
def Layout.pad_to_align_size (l : Layout) : Nat :=
  (l.size + l.align - 1) / l.align * l.align

/-- The allocator state (`struct InnerAlloc`): `next` points to the start of
the next available allocation, `upper_limit` is the address of the upper
limit of the heap. -/
structure InnerAlloc where
  next : Nat
  upper_limit : Nat
deriving DecidableEq, Repr

/-- `InnerAlloc::new()`: both fields start at zero. -/
def InnerAlloc.new : InnerAlloc :=
  { next := 0, upper_limit := 0 }

/-- The `#[cfg(test)]` page source stub: requesting pages always succeeds and
returns the current `upper_limit` as the base of the granted region, i.e.
pages are granted immediately after all previously granted memory. -/
def InnerAlloc.request_pages (s : InnerAlloc) (_pages : Nat) : Option Nat :=
  some s.upper_limit

/-- `fn required_pages(size: usize) -> Option<usize>`:
`size.checked_add(PAGE_SIZE - 1).and_then(|num| num.checked_div(PAGE_SIZE))`. -/
def required_pages (w size : Nat) : Option Nat :=
  (checked_add w size (PAGE_SIZE - 1)).bind (fun num => checked_div num PAGE_SIZE)

/-- `InnerAlloc::alloc`, parameterised over the page source so that claims
about "no page request occurs" can quantify over every possible source.
The source receives the state at the moment of the call and the number of
pages, and returns the base address of the granted region (or `none`).
Returns the optional start address paired with the state after the call. -/
def allocWith (w : Nat) (reqPages : InnerAlloc → Nat → Option Nat)
    (s : InnerAlloc) (layout : Layout) : Option Nat × InnerAlloc :=
  let alloc_start := s.next
  let aligned_size := layout.pad_to_align_size
  match checked_add w alloc_start aligned_size with
  | none => (none, s)
  | some alloc_end =>
    if alloc_end > s.upper_limit then
      match required_pages w aligned_size with
      | none => (none, s)
      | some rp =>
        match reqPages s rp with
        | none => (none, s)
        | some page_start =>
          match (checked_mul w rp PAGE_SIZE).bind
              (fun pages => checked_add w page_start pages) with
          | none => (none, s)
          | some new_upper =>
            let s1 : InnerAlloc := { s with upper_limit := new_upper }
            match checked_add w page_start aligned_size with
            | none => (none, s1)
            | some new_next => (some page_start, { s1 with next := new_next })
    else
      (some alloc_start, { s with next := alloc_end })

/-- `InnerAlloc::alloc` with the test page source stub wired in. -/
def InnerAlloc.alloc (w : Nat) (s : InnerAlloc) (layout : Layout) :
    Option Nat × InnerAlloc :=
  allocWith w InnerAlloc.request_pages s layout

/-- `BumpAllocator::alloc`: translates `None` into the null pointer
(address 0), as `core::ptr::null_mut()` does. -/
def BumpAllocator.alloc (w : Nat) (s : InnerAlloc) (layout : Layout) :
    Nat × InnerAlloc :=
  match InnerAlloc.alloc w s layout with
  | (some start, s1) => (start, s1)
  | (none, s1) => (0, s1)

/-- `BumpAllocator::alloc_zeroed`: the body is exactly `self.alloc(layout)`. -/
def BumpAllocator.alloc_zeroed (w : Nat) (s : InnerAlloc) (layout : Layout) :
    Nat × InnerAlloc :=
  BumpAllocator.alloc w s layout

/-- `BumpAllocator::dealloc`: the body is empty, the state is untouched. -/
def BumpAllocator.dealloc (s : InnerAlloc) (_ptr : Nat) (_layout : Layout) :
    InnerAlloc :=
  s

/-- Run a sequence of `alloc` calls from a state, collecting the
`(start, padded_size)` pair of every successful call and threading the state
through failed calls as well. -/
def runAllocs (w : Nat) (s : InnerAlloc) : List Layout → List (Nat × Nat) × InnerAlloc
  | [] => ([], s)
  | l :: ls =>
    match InnerAlloc.alloc w s l with
    | (some start, s1) =>
      let rest := runAllocs w s1 ls
      ((start, l.pad_to_align_size) :: rest.1, rest.2)
    | (none, s1) => runAllocs w s1 ls

/-! ### Case-analysis lemmas for `alloc` -/

/-- The padded size never exceeds `required_pages` many whole pages. -/
lemma pad_le_pages_mul (a : Nat) :
    a ≤ (a + (PAGE_SIZE - 1)) / PAGE_SIZE * PAGE_SIZE := by
  unfold PAGE_SIZE
  omega

/-- Overflow of the end-address computation: `alloc` fails with the state
untouched, whatever the page source is. -/
lemma allocWith_overflow_end (w : Nat) (rq : InnerAlloc → Nat → Option Nat)
    (s : InnerAlloc) (l : Layout)
    (h : USIZE_MAX w < s.next + l.pad_to_align_size) :
    allocWith w rq s l = (none, s) := by
  simp [allocWith, checked_add, Nat.not_le.mpr h]

/-- The request fits in existing headroom: `alloc` bumps `next` and returns
the old `next`, whatever the page source is. -/
lemma allocWith_fits (w : Nat) (rq : InnerAlloc → Nat → Option Nat)
    (s : InnerAlloc) (l : Layout)
    (h1 : s.next + l.pad_to_align_size ≤ USIZE_MAX w)
    (h2 : s.next + l.pad_to_align_size ≤ s.upper_limit) :
    allocWith w rq s l =
      (some s.next,
       { next := s.next + l.pad_to_align_size, upper_limit := s.upper_limit }) := by
  simp [allocWith, checked_add, h1, Nat.not_lt.mpr h2]

/-- Growth branch, overflow inside `required_pages`: `alloc` fails with the
state untouched. -/
lemma alloc_grow_rp_overflow (w : Nat) (s : InnerAlloc) (l : Layout)
    (h1 : s.next + l.pad_to_align_size ≤ USIZE_MAX w)
    (h2 : s.upper_limit < s.next + l.pad_to_align_size)
    (h3 : USIZE_MAX w < l.pad_to_align_size + (PAGE_SIZE - 1)) :
    InnerAlloc.alloc w s l = (none, s) := by
  simp [InnerAlloc.alloc, allocWith, checked_add, required_pages, h1, h2,
    Nat.not_le.mpr h3]

/-- Growth branch, overflow of the new `upper_limit` computation: `alloc`
fails with the state untouched (the assignment happens only after the whole
checked chain has succeeded). -/
lemma alloc_grow_ul_overflow (w : Nat) (s : InnerAlloc) (l : Layout)
    (h1 : s.next + l.pad_to_align_size ≤ USIZE_MAX w)
    (h2 : s.upper_limit < s.next + l.pad_to_align_size)
    (h3 : l.pad_to_align_size + (PAGE_SIZE - 1) ≤ USIZE_MAX w)
    (h4 : USIZE_MAX w < s.upper_limit +
      (l.pad_to_align_size + (PAGE_SIZE - 1)) / PAGE_SIZE * PAGE_SIZE) :
    InnerAlloc.alloc w s l = (none, s) := by
  by_cases hm : (l.pad_to_align_size + (PAGE_SIZE - 1)) / PAGE_SIZE * PAGE_SIZE ≤
      USIZE_MAX w
  · simp [InnerAlloc.alloc, allocWith, checked_add, checked_mul, checked_div,
      required_pages, InnerAlloc.request_pages, h1, h2, h3, hm,
      Nat.not_le.mpr h4, show PAGE_SIZE ≠ 0 by decide]
  · simp [InnerAlloc.alloc, allocWith, checked_add, checked_mul, checked_div,
      required_pages, InnerAlloc.request_pages, h1, h2, h3, hm,
      show PAGE_SIZE ≠ 0 by decide]

/-- Growth branch, all checked arithmetic in range: `alloc` returns the base
of the newly granted region (the old `upper_limit` under the test stub) and
sets both fields. -/
lemma alloc_grow_success (w : Nat) (s : InnerAlloc) (l : Layout)
    (h1 : s.next + l.pad_to_align_size ≤ USIZE_MAX w)
    (h2 : s.upper_limit < s.next + l.pad_to_align_size)
    (h3 : l.pad_to_align_size + (PAGE_SIZE - 1) ≤ USIZE_MAX w)
    (h4 : s.upper_limit +
      (l.pad_to_align_size + (PAGE_SIZE - 1)) / PAGE_SIZE * PAGE_SIZE ≤ USIZE_MAX w) :
    InnerAlloc.alloc w s l =
      (some s.upper_limit,
       { next := s.upper_limit + l.pad_to_align_size,
         upper_limit := s.upper_limit +
           (l.pad_to_align_size + (PAGE_SIZE - 1)) / PAGE_SIZE * PAGE_SIZE }) := by
  have hpad := pad_le_pages_mul l.pad_to_align_size
  have hm : (l.pad_to_align_size + (PAGE_SIZE - 1)) / PAGE_SIZE * PAGE_SIZE ≤
      USIZE_MAX w := le_trans (Nat.le_add_left _ _) h4
  have hn : s.upper_limit + l.pad_to_align_size ≤ USIZE_MAX w :=
    le_trans (Nat.add_le_add_left hpad _) h4
  simp [InnerAlloc.alloc, allocWith, checked_add, checked_mul, checked_div,
    required_pages, InnerAlloc.request_pages, h1, h2, h3, h4, hm, hn,
    show PAGE_SIZE ≠ 0 by decide]

/-- A failed `alloc` call leaves the state exactly as it was. -/
lemma alloc_none_state (w : Nat) (s : InnerAlloc) (l : Layout) (s1 : InnerAlloc)
    (h : InnerAlloc.alloc w s l = (none, s1)) : s1 = s := by
  rcases Nat.lt_or_ge (USIZE_MAX w) (s.next + l.pad_to_align_size) with h1 | h1
  · have e : InnerAlloc.alloc w s l = (none, s) :=
      allocWith_overflow_end w InnerAlloc.request_pages s l h1
    rw [e] at h
    injection h with _ h2
    exact h2.symm
  rcases le_or_lt (s.next + l.pad_to_align_size) s.upper_limit with h2 | h2
  · have e : InnerAlloc.alloc w s l =
        (some s.next,
         { next := s.next + l.pad_to_align_size, upper_limit := s.upper_limit }) :=
      allocWith_fits w InnerAlloc.request_pages s l h1 h2
    rw [e] at h
    exact absurd h (by simp)
  rcases Nat.lt_or_ge (USIZE_MAX w) (l.pad_to_align_size + (PAGE_SIZE - 1)) with h3 | h3
  · have e := alloc_grow_rp_overflow w s l h1 h2 h3
    rw [e] at h
    injection h with _ h4
    exact h4.symm
  rcases Nat.lt_or_ge (USIZE_MAX w)
      (s.upper_limit + (l.pad_to_align_size + (PAGE_SIZE - 1)) / PAGE_SIZE * PAGE_SIZE)
      with h4 | h4
  · have e := alloc_grow_ul_overflow w s l h1 h2 h3 h4
    rw [e] at h
    injection h with _ h5
    exact h5.symm
  · have e := alloc_grow_success w s l h1 h2 h3 h4
    rw [e] at h
    exact absurd h (by simp)

/-- A successful `alloc` call from a well-formed state returns a start at or
after the old `next`, leaves the new `next` exactly `padded_size` past the
start, and preserves `next ≤ upper_limit`. -/
lemma alloc_some_step (w : Nat) (s : InnerAlloc) (l : Layout) (start : Nat)
    (s1 : InnerAlloc) (hinv : s.next ≤ s.upper_limit)
    (h : InnerAlloc.alloc w s l = (some start, s1)) :
    s.next ≤ start ∧ s1.next = start + l.pad_to_align_size ∧
      s1.next ≤ s1.upper_limit := by
  rcases Nat.lt_or_ge (USIZE_MAX w) (s.next + l.pad_to_align_size) with h1 | h1
  · have e : InnerAlloc.alloc w s l = (none, s) :=
      allocWith_overflow_end w InnerAlloc.request_pages s l h1
    rw [e] at h
    exact absurd h (by simp)
  rcases le_or_lt (s.next + l.pad_to_align_size) s.upper_limit with h2 | h2
  · have e : InnerAlloc.alloc w s l =
        (some s.next,
         { next := s.next + l.pad_to_align_size, upper_limit := s.upper_limit }) :=
      allocWith_fits w InnerAlloc.request_pages s l h1 h2
    rw [e] at h
    injection h with ho hs
    injection ho with ho
    subst ho
    subst hs
    exact ⟨Nat.le_refl _, rfl, h2⟩
  rcases Nat.lt_or_ge (USIZE_MAX w) (l.pad_to_align_size + (PAGE_SIZE - 1)) with h3 | h3
  · have e := alloc_grow_rp_overflow w s l h1 h2 h3
    rw [e] at h
    exact absurd h (by simp)
  rcases Nat.lt_or_ge (USIZE_MAX w)
      (s.upper_limit + (l.pad_to_align_size + (PAGE_SIZE - 1)) / PAGE_SIZE * PAGE_SIZE)
      with h4 | h4
  · have e := alloc_grow_ul_overflow w s l h1 h2 h3 h4
    rw [e] at h
    exact absurd h (by simp)
  · have e := alloc_grow_success w s l h1 h2 h3 h4
    rw [e] at h
    injection h with ho hs
    injection ho with ho
    subst ho
    subst hs
    exact ⟨hinv, rfl, Nat.add_le_add_left (pad_le_pages_mul _) _⟩

/-- Over any run of `alloc` calls from a well-formed state, every recorded
start is at or past the initial `next`, and each recorded allocation ends at
or before the start of every later one. -/
lemma runAllocs_bounds (w : Nat) :
    ∀ (ls : List Layout) (s : InnerAlloc), s.next ≤ s.upper_limit →
      (∀ p ∈ (runAllocs w s ls).1, s.next ≤ p.1) ∧
      List.Pairwise (fun p q => p.1 + p.2 ≤ q.1) (runAllocs w s ls).1 := by
  intro ls
  induction ls with
  | nil =>
    intro s _
    simp [runAllocs]
  | cons l ls ih =>
    intro s hinv
    rcases halloc : InnerAlloc.alloc w s l with ⟨o, s1⟩
    rcases o with _ | start
    · have hs1 : s1 = s := alloc_none_state w s l s1 halloc
      have hrun : runAllocs w s (l :: ls) = runAllocs w s1 ls := by
        simp [runAllocs, halloc]
      rw [hrun, hs1]
      exact ih s hinv
    · obtain ⟨hstart, hnext, hinv1⟩ := alloc_some_step w s l start s1 hinv halloc
      have hrun : runAllocs w s (l :: ls) =
          ((start, l.pad_to_align_size) :: (runAllocs w s1 ls).1,
           (runAllocs w s1 ls).2) := by
        simp [runAllocs, halloc]
      obtain ⟨hmem, hpw⟩ := ih s1 hinv1
      rw [hrun]
      constructor
      · intro p hp
        rcases List.mem_cons.mp hp with hp | hp
        · rw [hp]
          exact hstart
        · have := hmem p hp
          omega
      · refine List.Pairwise.cons ?_ hpw
        intro q hq
        have := hmem q hq
        omega

example : InnerAlloc.alloc 32 InnerAlloc.new ⟨0, 1, ⟨0, rfl⟩⟩ =
    (some 0, { next := 0, upper_limit := 0 }) := by decide

example : InnerAlloc.alloc 32 InnerAlloc.new ⟨1, 1, ⟨0, rfl⟩⟩ =
    (some 0, { next := 1, upper_limit := 65536 }) := by decide

example : InnerAlloc.alloc 32 { next := 65535, upper_limit := 65536 } ⟨2, 2, ⟨1, rfl⟩⟩ =
    (some 65536, { next := 65538, upper_limit := 131072 }) := by decide

example : InnerAlloc.alloc 32 { next := 4294901760, upper_limit := 4294901760 }
    ⟨1, 1, ⟨0, rfl⟩⟩ =
    (none, { next := 4294901760, upper_limit := 4294901760 }) := by decide

example : required_pages 32 65537 = some 2 := by decide

/-- Success of `required_pages` under the no-overflow side condition. -/
lemma required_pages_eq_of_le (w size : Nat)
    (h : size + (PAGE_SIZE - 1) ≤ USIZE_MAX w) :
    required_pages w size = some ((size + (PAGE_SIZE - 1)) / PAGE_SIZE) := by
  simp [required_pages, checked_add, checked_div, h, show PAGE_SIZE ≠ 0 by decide]

/-- Failure of `required_pages` when the page-rounding addition overflows. -/
lemma required_pages_none_of_lt (w size : Nat)
    (h : USIZE_MAX w < size + (PAGE_SIZE - 1)) :
    required_pages w size = none := by
  simp [required_pages, checked_add, Nat.not_le.mpr h]

/-! ### Claims -/

/-- C1 (counterexample): from the fresh state, a size-0 alignment-1 request
takes the headroom branch (`0 > 0` is false), so `alloc` returns start 0 and
leaves `upper_limit` at 0 — it does NOT become 65536 as the claim states. -/
theorem spec_c1_counterexample :
    InnerAlloc.alloc 32 InnerAlloc.new ⟨0, 1, ⟨0, rfl⟩⟩ =
      (some 0, { next := 0, upper_limit := 0 }) ∧
    (InnerAlloc.alloc 32 InnerAlloc.new ⟨0, 1, ⟨0, rfl⟩⟩).2.upper_limit ≠ 65536 := by
  decide

/-- C1 (amended): starting from the fresh state (`next = 0`,
`upper_limit = 0`), calling `alloc` with a request of size 0 and alignment 1
returns start address 0, leaves `upper_limit` at 0, and leaves `next` at 0. -/
theorem spec_c1 :
    InnerAlloc.alloc 32 InnerAlloc.new ⟨0, 1, ⟨0, rfl⟩⟩ = (some 0, InnerAlloc.new) := by
  decide

/-- C2 (counterexample): from the fresh state a 1-byte request does not fit
the headroom (`0 + 1 > 0`), yet the returned start address 0 IS equal to the
old `next` (also 0), refuting the claim's "never equal to the old next". -/
theorem spec_c2_counterexample :
    InnerAlloc.new.upper_limit <
      InnerAlloc.new.next + Layout.pad_to_align_size ⟨1, 1, ⟨0, rfl⟩⟩ ∧
    (InnerAlloc.alloc 32 InnerAlloc.new ⟨1, 1, ⟨0, rfl⟩⟩).1 =
      some InnerAlloc.new.next := by
  decide

/-- C2 (amended): for every successful `alloc` call whose padded size does
not fit the current headroom, the returned start address equals the base of
the newly granted page region (the old `upper_limit` under the test stub),
`upper_limit` increases by exactly `required_pages * PAGE_SIZE`, and the
start differs from the old `next` whenever `next < upper_limit` (it can
coincide with the old `next` exactly when `next = upper_limit`). -/
theorem spec_c2 (w : Nat) (s : InnerAlloc) (l : Layout) (start : Nat)
    (s1 : InnerAlloc)
    (hgrow : s.upper_limit < s.next + l.pad_to_align_size)
    (hsucc : InnerAlloc.alloc w s l = (some start, s1)) :
    ∃ rp, required_pages w l.pad_to_align_size = some rp ∧
      start = s.upper_limit ∧
      s1.upper_limit = s.upper_limit + rp * PAGE_SIZE ∧
      (s.next < s.upper_limit → start ≠ s.next) := by
  rcases Nat.lt_or_ge (USIZE_MAX w) (s.next + l.pad_to_align_size) with h1 | h1
  · have e : InnerAlloc.alloc w s l = (none, s) :=
      allocWith_overflow_end w InnerAlloc.request_pages s l h1
    rw [e] at hsucc
    exact absurd hsucc (by simp)
  rcases le_or_lt (s.next + l.pad_to_align_size) s.upper_limit with h2 | h2
  · omega
  rcases Nat.lt_or_ge (USIZE_MAX w) (l.pad_to_align_size + (PAGE_SIZE - 1)) with h3 | h3
  · have e := alloc_grow_rp_overflow w s l h1 h2 h3
    rw [e] at hsucc
    exact absurd hsucc (by simp)
  rcases Nat.lt_or_ge (USIZE_MAX w)
      (s.upper_limit + (l.pad_to_align_size + (PAGE_SIZE - 1)) / PAGE_SIZE * PAGE_SIZE)
      with h4 | h4
  · have e := alloc_grow_ul_overflow w s l h1 h2 h3 h4
    rw [e] at hsucc
    exact absurd hsucc (by simp)
  · have e := alloc_grow_success w s l h1 h2 h3 h4
    rw [e] at hsucc
    injection hsucc with ho hs
    injection ho with ho
    subst ho
    subst hs
    refine ⟨(l.pad_to_align_size + (PAGE_SIZE - 1)) / PAGE_SIZE,
      required_pages_eq_of_le w _ h3, rfl, rfl, ?_⟩
    intro hlt
    exact (Nat.ne_of_lt hlt).symm

/-- C2 (witness): concrete growth-branch call at the fresh state with a
1-byte request. -/
theorem spec_c2_witness :
    (InnerAlloc.new.upper_limit <
      InnerAlloc.new.next + Layout.pad_to_align_size ⟨1, 1, ⟨0, rfl⟩⟩) ∧
    ∃ rp, required_pages 32 (Layout.pad_to_align_size ⟨1, 1, ⟨0, rfl⟩⟩) = some rp ∧
      (0 : Nat) = InnerAlloc.new.upper_limit ∧
      (InnerAlloc.alloc 32 InnerAlloc.new ⟨1, 1, ⟨0, rfl⟩⟩).2.upper_limit =
        InnerAlloc.new.upper_limit + rp * PAGE_SIZE ∧
      (InnerAlloc.new.next < InnerAlloc.new.upper_limit → (0 : Nat) ≠ InnerAlloc.new.next) :=
  ⟨by decide, spec_c2 32 InnerAlloc.new ⟨1, 1, ⟨0, rfl⟩⟩ 0
    { next := 1, upper_limit := 65536 } (by decide) (by decide)⟩

/-- C3 (counterexample): two successive size-0 requests from the fresh state
both succeed and both return start address 0, so the returned start
addresses of a sequence of successful calls are not strictly increasing. -/
theorem spec_c3_counterexample :
    ¬ List.Pairwise (fun p q => p.1 < q.1)
      (runAllocs 32 InnerAlloc.new [⟨0, 1, ⟨0, rfl⟩⟩, ⟨0, 1, ⟨0, rfl⟩⟩]).1 := by
  decide

/-- C3 (amended): for every sequence of `alloc` calls from a state with
`next ≤ upper_limit` (in particular the fresh state), each successful call's
interval `[start, start + padded_size)` ends at or before the start of every
later successful call; hence the starts are strictly increasing whenever all
padded sizes are positive (size-0 requests may repeat a start), and the
intervals of distinct successful calls are pairwise disjoint. -/
theorem spec_c3 (w : Nat) (s : InnerAlloc) (ls : List Layout)
    (hinv : s.next ≤ s.upper_limit) :
    List.Pairwise (fun p q => p.1 + p.2 ≤ q.1) (runAllocs w s ls).1 ∧
    ((∀ p ∈ (runAllocs w s ls).1, 0 < p.2) →
      List.Pairwise (fun p q => p.1 < q.1) (runAllocs w s ls).1) ∧
    List.Pairwise
      (fun p q => ∀ a : Nat, p.1 ≤ a ∧ a < p.1 + p.2 →
        ¬ (q.1 ≤ a ∧ a < q.1 + q.2)) (runAllocs w s ls).1 := by
  obtain ⟨_, hpw⟩ := runAllocs_bounds w ls s hinv
  refine ⟨hpw, ?_, ?_⟩
  · intro hpos
    refine List.Pairwise.imp_of_mem ?_ hpw
    intro p q hp _ hr
    have := hpos p hp
    omega
  · refine List.Pairwise.imp ?_ hpw
    intro p q hr
    intro a ha hb
    omega

/-- C3 (witness): two positive-size requests from the fresh state. -/
theorem spec_c3_witness :
    InnerAlloc.new.next ≤ InnerAlloc.new.upper_limit ∧
    List.Pairwise (fun p q => p.1 + p.2 ≤ q.1)
      (runAllocs 32 InnerAlloc.new [⟨1, 1, ⟨0, rfl⟩⟩, ⟨2, 2, ⟨1, rfl⟩⟩]).1 :=
  ⟨by decide,
    (spec_c3 32 InnerAlloc.new [⟨1, 1, ⟨0, rfl⟩⟩, ⟨2, 2, ⟨1, rfl⟩⟩] (by decide)).1⟩

/-- C4: for every state with `next ≤ upper_limit` (and `upper_limit`
representable at width `w`) and every request whose padded size is at most
`upper_limit - next`, `alloc` does not invoke the page source (the result is
the same for every possible source), returns the old `next` as the start,
advances `next` by exactly the padded size, and leaves `upper_limit`
unchanged. -/
theorem spec_c4 (w : Nat) (reqPages : InnerAlloc → Nat → Option Nat)
    (s : InnerAlloc) (l : Layout)
    (hrep : s.upper_limit ≤ USIZE_MAX w)
    (hinv : s.next ≤ s.upper_limit)
    (hfit : l.pad_to_align_size ≤ s.upper_limit - s.next) :
    allocWith w reqPages s l =
      (some s.next,
       { next := s.next + l.pad_to_align_size, upper_limit := s.upper_limit }) :=
  allocWith_fits w reqPages s l (by omega) (by omega)

/-- C4 (witness): a 4-byte, 4-byte-aligned request fitting the headroom of
the state `next = 3`, `upper_limit = 65536`; the page source is irrelevant
but is instantiated with the test stub. -/
theorem spec_c4_witness :
    (({ next := 3, upper_limit := 65536 } : InnerAlloc).upper_limit ≤ USIZE_MAX 32 ∧
      ({ next := 3, upper_limit := 65536 } : InnerAlloc).next ≤
        ({ next := 3, upper_limit := 65536 } : InnerAlloc).upper_limit ∧
      Layout.pad_to_align_size ⟨4, 4, ⟨2, rfl⟩⟩ ≤
        ({ next := 3, upper_limit := 65536 } : InnerAlloc).upper_limit -
          ({ next := 3, upper_limit := 65536 } : InnerAlloc).next) ∧
    allocWith 32 InnerAlloc.request_pages { next := 3, upper_limit := 65536 }
        ⟨4, 4, ⟨2, rfl⟩⟩ =
      (some 3, { next := 7, upper_limit := 65536 }) :=
  ⟨⟨by decide, by decide, by decide⟩,
    spec_c4 32 InnerAlloc.request_pages { next := 3, upper_limit := 65536 }
      ⟨4, 4, ⟨2, rfl⟩⟩ (by decide) (by decide) (by decide)⟩

/-- C5: whenever the page-rounding addition stays in range, `required_pages`
returns the ceiling of `size / 65536`; in particular it maps 0 to 0, 65536
to 1 and 65537 to 2; and when `size + 65535` overflows the address width it
returns `none`. -/
theorem spec_c5 (w : Nat) (hw : 18 ≤ w) :
    (∀ size : Nat, size + (PAGE_SIZE - 1) ≤ USIZE_MAX w →
      required_pages w size = some (size ⌈/⌉ PAGE_SIZE)) ∧
    required_pages w 0 = some 0 ∧
    required_pages w PAGE_SIZE = some 1 ∧
    required_pages w (PAGE_SIZE + 1) = some 2 ∧
    (∀ size : Nat, USIZE_MAX w < size + (PAGE_SIZE - 1) →
      required_pages w size = none) := by
  have hpow : (262144 : Nat) ≤ 2 ^ w := by
    calc (262144 : Nat) = 2 ^ 18 := by norm_num
    _ ≤ 2 ^ w := Nat.pow_le_pow_right (by norm_num) hw
  have hM : 262143 ≤ USIZE_MAX w := by
    unfold USIZE_MAX
    omega
  have hceil : ∀ size : Nat,
      size ⌈/⌉ PAGE_SIZE = (size + (PAGE_SIZE - 1)) / PAGE_SIZE := by
    intro size
    rw [Nat.ceilDiv_eq_add_pred_div]
    unfold PAGE_SIZE
    omega
  refine ⟨?_, ?_, ?_, ?_, ?_⟩
  · intro size hs
    rw [required_pages_eq_of_le w size hs, hceil]
  · rw [required_pages_eq_of_le w 0 (by unfold PAGE_SIZE at *; omega)]
    norm_num [PAGE_SIZE]
  · rw [required_pages_eq_of_le w PAGE_SIZE (by unfold PAGE_SIZE at *; omega)]
    norm_num [PAGE_SIZE]
  · rw [required_pages_eq_of_le w (PAGE_SIZE + 1) (by unfold PAGE_SIZE at *; omega)]
    norm_num [PAGE_SIZE]
  · intro size hs
    exact required_pages_none_of_lt w size hs

/-- C5 (witness): the 32-bit instantiation, evaluated at 65537 and at an
overflowing size. -/
theorem spec_c5_witness :
    (18 ≤ 32 ∧ required_pages 32 65537 = some (65537 ⌈/⌉ PAGE_SIZE)) ∧
    required_pages 32 0 = some 0 ∧
    required_pages 32 4294901761 = none :=
  ⟨⟨by decide, (spec_c5 32 (by decide)).1 65537 (by decide)⟩,
    (spec_c5 32 (by decide)).2.1,
    (spec_c5 32 (by decide)).2.2.2.2 4294901761 (by decide)⟩

/-- C6: whenever the end-address computation, the page-rounding computation
inside `required_pages`, or the new-`upper_limit` computation would overflow
the address width, `alloc` returns `none` (never a wrapped address) and
leaves the state — `next` and `upper_limit` — entirely unmodified. -/
theorem spec_c6 (w : Nat) (s : InnerAlloc) (l : Layout)
    (h : USIZE_MAX w < s.next + l.pad_to_align_size ∨
      (s.upper_limit < s.next + l.pad_to_align_size ∧
        (USIZE_MAX w < l.pad_to_align_size + (PAGE_SIZE - 1) ∨
         USIZE_MAX w < s.upper_limit +
           (l.pad_to_align_size + (PAGE_SIZE - 1)) / PAGE_SIZE * PAGE_SIZE))) :
    InnerAlloc.alloc w s l = (none, s) := by
  rcases h with h1 | ⟨hg, hd⟩
  · exact allocWith_overflow_end w InnerAlloc.request_pages s l h1
  rcases Nat.lt_or_ge (USIZE_MAX w) (s.next + l.pad_to_align_size) with h1 | h1
  · exact allocWith_overflow_end w InnerAlloc.request_pages s l h1
  rcases hd with h3 | h4
  · exact alloc_grow_rp_overflow w s l h1 hg h3
  rcases Nat.lt_or_ge (USIZE_MAX w) (l.pad_to_align_size + (PAGE_SIZE - 1)) with h3 | h3
  · exact alloc_grow_rp_overflow w s l h1 hg h3
  exact alloc_grow_ul_overflow w s l h1 hg h3 h4

/-- C6 (witness): at width 32, a 1-byte request from a state whose `next` is
already `usize::MAX` overflows the end-address computation; `alloc` fails
and the state is unchanged. -/
theorem spec_c6_witness :
    USIZE_MAX 32 <
      ({ next := 4294967295, upper_limit := 4294967295 } : InnerAlloc).next +
        Layout.pad_to_align_size ⟨1, 1, ⟨0, rfl⟩⟩ ∧
    InnerAlloc.alloc 32 { next := 4294967295, upper_limit := 4294967295 }
        ⟨1, 1, ⟨0, rfl⟩⟩ =
      (none, { next := 4294967295, upper_limit := 4294967295 }) :=
  ⟨by decide,
    spec_c6 32 { next := 4294967295, upper_limit := 4294967295 } ⟨1, 1, ⟨0, rfl⟩⟩
      (Or.inl (by decide))⟩

/-- C7: every `alloc` call (with the test page source stub) preserves the
state invariants: from any state with `next ≤ upper_limit` (the fresh state
included), afterwards `next ≤ upper_limit` still holds, `next` has not
decreased, and `upper_limit` has not decreased and has changed by a whole
multiple of `PAGE_SIZE`. -/
theorem spec_c7 (w : Nat) (s : InnerAlloc) (l : Layout)
    (hinv : s.next ≤ s.upper_limit) :
    (InnerAlloc.alloc w s l).2.next ≤ (InnerAlloc.alloc w s l).2.upper_limit ∧
    s.next ≤ (InnerAlloc.alloc w s l).2.next ∧
    s.upper_limit ≤ (InnerAlloc.alloc w s l).2.upper_limit ∧
    ∃ k : Nat, (InnerAlloc.alloc w s l).2.upper_limit =
      s.upper_limit + k * PAGE_SIZE := by
  rcases Nat.lt_or_ge (USIZE_MAX w) (s.next + l.pad_to_align_size) with h1 | h1
  · have e : InnerAlloc.alloc w s l = (none, s) :=
      allocWith_overflow_end w InnerAlloc.request_pages s l h1
    rw [e]
    exact ⟨hinv, Nat.le_refl _, Nat.le_refl _, 0, by simp⟩
  rcases le_or_lt (s.next + l.pad_to_align_size) s.upper_limit with h2 | h2
  · have e : InnerAlloc.alloc w s l =
        (some s.next,
         { next := s.next + l.pad_to_align_size, upper_limit := s.upper_limit }) :=
      allocWith_fits w InnerAlloc.request_pages s l h1 h2
    rw [e]
    exact ⟨h2, Nat.le_add_right _ _, Nat.le_refl _, 0, by simp⟩
  rcases Nat.lt_or_ge (USIZE_MAX w) (l.pad_to_align_size + (PAGE_SIZE - 1)) with h3 | h3
  · have e := alloc_grow_rp_overflow w s l h1 h2 h3
    rw [e]
    exact ⟨hinv, Nat.le_refl _, Nat.le_refl _, 0, by simp⟩
  rcases Nat.lt_or_ge (USIZE_MAX w)
      (s.upper_limit + (l.pad_to_align_size + (PAGE_SIZE - 1)) / PAGE_SIZE * PAGE_SIZE)
      with h4 | h4
  · have e := alloc_grow_ul_overflow w s l h1 h2 h3 h4
    rw [e]
    exact ⟨hinv, Nat.le_refl _, Nat.le_refl _, 0, by simp⟩
  · have e := alloc_grow_success w s l h1 h2 h3 h4
    rw [e]
    refine ⟨Nat.add_le_add_left (pad_le_pages_mul _) _,
      le_trans hinv (Nat.le_add_right _ _), Nat.le_add_right _ _,
      (l.pad_to_align_size + (PAGE_SIZE - 1)) / PAGE_SIZE, rfl⟩

/-- C7 (witness): the invariants after a 1-byte allocation from the fresh
state. -/
theorem spec_c7_witness :
    InnerAlloc.new.next ≤ InnerAlloc.new.upper_limit ∧
    ((InnerAlloc.alloc 32 InnerAlloc.new ⟨1, 1, ⟨0, rfl⟩⟩).2.next ≤
        (InnerAlloc.alloc 32 InnerAlloc.new ⟨1, 1, ⟨0, rfl⟩⟩).2.upper_limit ∧
      InnerAlloc.new.next ≤ (InnerAlloc.alloc 32 InnerAlloc.new ⟨1, 1, ⟨0, rfl⟩⟩).2.next ∧
      InnerAlloc.new.upper_limit ≤
        (InnerAlloc.alloc 32 InnerAlloc.new ⟨1, 1, ⟨0, rfl⟩⟩).2.upper_limit ∧
      ∃ k : Nat, (InnerAlloc.alloc 32 InnerAlloc.new ⟨1, 1, ⟨0, rfl⟩⟩).2.upper_limit =
        InnerAlloc.new.upper_limit + k * PAGE_SIZE) :=
  ⟨by decide, spec_c7 32 InnerAlloc.new ⟨1, 1, ⟨0, rfl⟩⟩ (by decide)⟩

/-- C8: in the page-growth branch the checked computation of the new `next`
cannot fail once the checked computation of the new `upper_limit` has
succeeded (the padded size is at most `required_pages * PAGE_SIZE`), so a
failing `alloc` call always leaves the state — in particular `upper_limit` —
exactly as it was before the call. -/
theorem spec_c8 (w : Nat) (s : InnerAlloc) (l : Layout)
    (h : (InnerAlloc.alloc w s l).1 = none) :
    (InnerAlloc.alloc w s l).2 = s := by
  rcases he : InnerAlloc.alloc w s l with ⟨o, s1⟩
  rw [he] at h
  simp at h
  subst h
  exact alloc_none_state w s l s1 he

/-- C8 (witness): a failing call that reaches the growth branch and
overflows precisely at the new-`upper_limit` computation (width 32,
`upper_limit = 2^32 - PAGE_SIZE`), leaving the state unchanged. -/
theorem spec_c8_witness :
    (InnerAlloc.alloc 32 { next := 4294901760, upper_limit := 4294901760 }
        ⟨1, 1, ⟨0, rfl⟩⟩).1 = none ∧
    (InnerAlloc.alloc 32 { next := 4294901760, upper_limit := 4294901760 }
        ⟨1, 1, ⟨0, rfl⟩⟩).2 =
      { next := 4294901760, upper_limit := 4294901760 } :=
  ⟨by decide,
    spec_c8 32 { next := 4294901760, upper_limit := 4294901760 } ⟨1, 1, ⟨0, rfl⟩⟩
      (by decide)⟩

/-- C9: for every width, allocator state and layout, `alloc_zeroed` returns
exactly the same result and produces exactly the same state change as
`alloc` — its body is literally a call to `alloc`. -/
theorem spec_c9 (w : Nat) (s : InnerAlloc) (l : Layout) :
    BumpAllocator.alloc_zeroed w s l = BumpAllocator.alloc w s l := rfl

/-- C10: for every pointer and layout, `dealloc` is a no-op: it returns the
state with `next` and `upper_limit` entirely unchanged, reclaiming no
capacity. -/
theorem spec_c10 (s : InnerAlloc) (p : Nat) (l : Layout) :
    BumpAllocator.dealloc s p l = s ∧
    (BumpAllocator.dealloc s p l).next = s.next ∧
    (BumpAllocator.dealloc s p l).upper_limit = s.upper_limit :=
  ⟨rfl, rfl, rfl⟩
